import Mathlib

/-!
Verification of the GoTuto billing engine: invoice lifecycle and
referential-integrity rules.

The Go sources are embedded shallowly:

* `type InvoiceStatus string` becomes an abbreviation for `String`;
* `time.Time` values are modelled as `Int` ticks (`GoTime`): the zero
  value of `time.Time` is tick `0`, `t.Before(u)` is `t < u`,
  `t.After(u)` is `u < t`, and `t.IsZero()` is `t = 0`;
* `float64` amounts are modelled as `Rat` (the handlers only compare
  amounts with `0`, never compute with them);
* `uint` identifiers are modelled as `Nat`;
* GORM's `gorm.DeletedAt` soft-delete marker is `Option GoTime`;
* the relationship fields (`Client.Invoices`, `Invoice.Client`) are
  persistence-side joins populated by `Preload`, not stored columns, and
  are omitted from the record types;
* the effectful reads of the handlers (`time.Now()`, database counts and
  lookups) become explicit arguments of the embedded functions.
-/

/-- Embeds `type InvoiceStatus string` (internal/billing/models/invoice.go:8).
The Go type is a string type, freely constructible from arbitrary text. -/
abbrev InvoiceStatus := String

/-- Embeds `time.Time` as integer ticks: `Before` is `<`, `After` is `>`,
and the zero value (`IsZero`) is `0`. -/
abbrev GoTime := Int

/-- `InvoiceStatusDraft InvoiceStatus = "draft"` (invoice.go:11). -/
def InvoiceStatusDraft : InvoiceStatus := "draft"

/-- `InvoiceStatusSent InvoiceStatus = "sent"` (invoice.go:12). -/
def InvoiceStatusSent : InvoiceStatus := "sent"

/-- `InvoiceStatusPaid InvoiceStatus = "paid"` (invoice.go:13). -/
def InvoiceStatusPaid : InvoiceStatus := "paid"

/-- `InvoiceStatusOverdue InvoiceStatus = "overdue"` (invoice.go:14). -/
def InvoiceStatusOverdue : InvoiceStatus := "overdue"

/-- `InvoiceStatusCancelled InvoiceStatus = "cancelled"` (invoice.go:15). -/
def InvoiceStatusCancelled : InvoiceStatus := "cancelled"

/-- Embeds `models.Client` (internal/billing/models/client.go): scalar
columns only; the `Invoices` relationship is a join, not a column. -/
structure Client where
  id : Nat
  name : String
  email : String
  phone : String
  address : String
  createdAt : GoTime
  updatedAt : GoTime
  deletedAt : Option GoTime
deriving Repr, DecidableEq

/-- Embeds `models.Invoice` (internal/billing/models/invoice.go:18-33):
scalar columns only; the `Client` relationship is a join, not a column. -/
structure Invoice where
  id : Nat
  number : String
  clientID : Nat
  amount : Rat
  status : InvoiceStatus
  issueDate : GoTime
  dueDate : GoTime
  description : String
  createdAt : GoTime
  updatedAt : GoTime
  deletedAt : Option GoTime
deriving Repr, DecidableEq

/-- Embeds `models.CreateInvoiceRequest` (invoice.go:35-42). -/
structure CreateInvoiceRequest where
  clientID : Nat
  amount : Rat
  status : InvoiceStatus
  issueDate : GoTime
  dueDate : GoTime
  description : String
deriving Repr, DecidableEq

/-- Embeds `models.UpdateInvoiceRequest` (invoice.go:44-50).  Absent JSON
fields bind to Go zero values: amount `0`, status `""`, dates the zero
time, description `""`. -/
structure UpdateInvoiceRequest where
  amount : Rat
  status : InvoiceStatus
  issueDate : GoTime
  dueDate : GoTime
  description : String
deriving Repr, DecidableEq

/-- Embeds `models.UpdateClientRequest` (internal/billing/models/client.go):
absent JSON fields bind to `""`. -/
structure UpdateClientRequest where
  name : String
  email : String
  phone : String
  address : String
deriving Repr, DecidableEq

/-- Embeds `isValidInvoiceStatus` (models test helpers, part_002:318-333):
linear scan of the five named status constants. -/
def isValidInvoiceStatus (status : InvoiceStatus) : Bool :=
  [InvoiceStatusDraft, InvoiceStatusSent, InvoiceStatusPaid,
    InvoiceStatusOverdue, InvoiceStatusCancelled].contains status

/-- The `transitions` map literal of `isValidStatusTransition`
(part_002:337-354), as a lookup: Go map indexing returns the value and an
`exists` flag, modelled by `Option`. -/
def transitionsFor (fromStatus : InvoiceStatus) : Option (List InvoiceStatus) :=
  if fromStatus = InvoiceStatusDraft then
    some [InvoiceStatusSent, InvoiceStatusCancelled]
  else if fromStatus = InvoiceStatusSent then
    some [InvoiceStatusPaid, InvoiceStatusOverdue, InvoiceStatusCancelled]
  else if fromStatus = InvoiceStatusOverdue then
    some [InvoiceStatusPaid, InvoiceStatusCancelled]
  else if fromStatus = InvoiceStatusPaid then
    some []
  else if fromStatus = InvoiceStatusCancelled then
    some []
  else
    none

/-- Embeds `isValidStatusTransition` (part_002:335-367): look the source
status up in the transition map, return `false` when absent, otherwise
scan the allowed targets. -/
def isValidStatusTransition (fromStatus toStatus : InvoiceStatus) : Bool :=
  match transitionsFor fromStatus with
  | none => false
  | some allowed => allowed.contains toStatus

/-- Embeds `Invoice.IsOverdue` (part_002:378-383).  The Go method takes no
time argument: it calls `time.Now()` internally, and that effectful read
is the explicit `now` argument here. -/
def Invoice.IsOverdue (i : Invoice) (now : GoTime) : Bool :=
  if i.status = InvoiceStatusPaid ∨ i.status = InvoiceStatusCancelled ∨
      i.status = InvoiceStatusDraft then
    false
  else
    decide (i.dueDate < now)

/-- Which check of `validateCreateInvoiceRequest` fired.  The Go helper
returns the same opaque `assert.AnError` from every branch; the tag
records the branch so that check order is observable in the model. -/
inductive ValidationFailure where
  | missingClientID
  | nonPositiveAmount
  | descriptionTooLong
  | dueBeforeIssue
deriving Repr, DecidableEq

/-- Embeds `validateCreateInvoiceRequest` (part_002:302-316): four checks
in source order, short-circuiting on the first failure.  `len` on a Go
string is its byte length, i.e. `String.utf8ByteSize`. -/
def validateCreateInvoiceRequest (req : CreateInvoiceRequest) :
    Option ValidationFailure :=
  if req.clientID = 0 then some .missingClientID
  else if req.amount ≤ 0 then some .nonPositiveAmount
  else if req.description.utf8ByteSize > 500 then some .descriptionTooLong
  else if req.dueDate ≠ 0 ∧ req.issueDate ≠ 0 ∧ req.dueDate < req.issueDate then
    some .dueBeforeIssue
  else none

/-- Embeds the field-application block of the `UpdateInvoice` handler
(internal/billing/api/invoice.go:146-161, identically
api/billing/internal/handlers/invoice.go:139-154): each supplied field
overwrites in source order; a zero-valued field is left unchanged.  The
handler has no rejection path between binding and `Save` — in particular
it never consults the transition graph. -/
def applyInvoiceUpdate (invoice : Invoice) (req : UpdateInvoiceRequest) : Invoice :=
  let invoice := if req.amount > 0 then { invoice with amount := req.amount } else invoice
  let invoice := if req.status ≠ "" then { invoice with status := req.status } else invoice
  let invoice := if req.issueDate ≠ 0 then { invoice with issueDate := req.issueDate } else invoice
  let invoice := if req.dueDate ≠ 0 then { invoice with dueDate := req.dueDate } else invoice
  let invoice := if req.description ≠ "" then { invoice with description := req.description } else invoice
  invoice

/-- Embeds the field-application block of the `UpdateClient` handler
(internal/billing/api/client.go:114-126): each non-empty supplied string
overwrites in source order. -/
def applyClientUpdate (client : Client) (req : UpdateClientRequest) : Client :=
  let client := if req.name ≠ "" then { client with name := req.name } else client
  let client := if req.email ≠ "" then { client with email := req.email } else client
  let client := if req.phone ≠ "" then { client with phone := req.phone } else client
  let client := if req.address ≠ "" then { client with address := req.address } else client
  client

/-- Embeds the referential guard of the `DeleteClient` handler
(internal/billing/api/client.go:148-158): given the live-invoice count the
collaborator computed for the client id, deletion is blocked
(`some count`, the error payload carrying `invoice_count`) when the count
is positive and proceeds (`none`) otherwise.  GORM's `Count` is an
`int64`, always non-negative. -/
def deleteClientGuard (invoiceCount : Int) : Option Int :=
  if invoiceCount > 0 then some invoiceCount else none

/-- Embeds the guard of the `DeleteInvoice` handler
(internal/billing/api/invoice.go:186-190): deletion proceeds exactly when
the status-equality check `invoice.Status == InvoiceStatusPaid` fails. -/
def canDeleteInvoice (status : InvoiceStatus) : Bool :=
  !(status == InvoiceStatusPaid)

/-- A calendar date as the `Format("20060102")` pattern renders it. -/
structure GoDate where
  year : Nat
  month : Nat
  day : Nat
deriving Repr, DecidableEq

/-- One decimal digit rendered as a character, `0` through `9`. -/
def digitChar (n : Nat) : Char :=
  match n with
  | 0 => '0'
  | 1 => '1'
  | 2 => '2'
  | 3 => '3'
  | 4 => '4'
  | 5 => '5'
  | 6 => '6'
  | 7 => '7'
  | 8 => '8'
  | 9 => '9'
  | _ => '*'

/-- The decimal value of a digit character, `none` on anything else. -/
def charDigit (c : Char) : Option Nat :=
  if c = '0' then some 0
  else if c = '1' then some 1
  else if c = '2' then some 2
  else if c = '3' then some 3
  else if c = '4' then some 4
  else if c = '5' then some 5
  else if c = '6' then some 6
  else if c = '7' then some 7
  else if c = '8' then some 8
  else if c = '9' then some 9
  else none

/-- Decimal digits of `n`, most significant first: the characters
`strconv.FormatInt(n, 10)` emits for a non-negative value. -/
def natToDigits (n : Nat) : List Char :=
  if _h : n < 10 then [digitChar n]
  else natToDigits (n / 10) ++ [digitChar (n % 10)]
termination_by n
decreasing_by exact Nat.div_lt_self (by omega) (by omega)

/-- Left-to-right decimal accumulation over characters; fails on the
first non-digit. -/
def parseDigitsAcc (acc : Nat) : List Char → Option Nat
  | [] => some acc
  | c :: rest =>
    match charDigit c with
    | some d => parseDigitsAcc (acc * 10 + d) rest
    | none => none

/-- Reads a non-empty all-digit character list as a decimal number. -/
def parseDecimal : List Char → Option Nat
  | [] => none
  | c :: rest => parseDigitsAcc 0 (c :: rest)

/-- Two-digit zero-padded field of `Format("20060102")` (month, day). -/
def pad2 (n : Nat) : List Char := [digitChar (n / 10 % 10), digitChar (n % 10)]

/-- Four-digit zero-padded year field of `Format("20060102")`, for years
up to 9999 (the only years the pattern renders in four digits). -/
def pad4 (n : Nat) : List Char :=
  [digitChar (n / 1000 % 10), digitChar (n / 100 % 10),
    digitChar (n / 10 % 10), digitChar (n % 10)]

/-- Embeds `time.Now().Format("INV-20060102-")` (invoice.go:100): the
literal characters `INV-`, the current date zero-padded to eight digits,
and a trailing dash;  the wall-clock date is the explicit argument. -/
def formatInvoicePrefix (d : GoDate) : String :=
  String.mk ([ 'I', 'N', 'V', '-' ] ++ pad4 d.year ++ pad2 d.month ++ pad2 d.day ++ [ '-' ])

/-- Embeds `strconv.FormatInt(v, 10)` for the non-negative counter. -/
def formatInt (n : Nat) : String := String.mk (natToDigits n)

/-- Embeds the number generation of `CreateInvoice` (invoice.go:97-100):
given the current calendar date and the count of invoices already created
that day, produce `INV-YYYYMMDD-<count+1>`. -/
def generateInvoiceNumber (d : GoDate) (count : Nat) : String :=
  formatInvoicePrefix d ++ formatInt (count + 1)

/-- Modelled from the spec: §8 round-trip reads an invoice number back as
its date and sequence.  Accepts exactly `INV-` + eight digits + `-` +
a non-empty decimal tail. -/
def parseInvoiceChars : List Char → Option (GoDate × Nat)
  | 'I' :: 'N' :: 'V' :: '-' :: y1 :: y2 :: y3 :: y4 ::
      m1 :: m2 :: d1 :: d2 :: '-' :: rest =>
    (match charDigit y1, charDigit y2, charDigit y3, charDigit y4,
        charDigit m1, charDigit m2, charDigit d1, charDigit d2,
        parseDecimal rest with
     | some a, some b, some c, some d, some e, some f, some g, some h, some seq =>
       some (⟨a * 1000 + b * 100 + c * 10 + d, e * 10 + f, g * 10 + h⟩, seq)
     | _, _, _, _, _, _, _, _, _ => none)
  | _ => none

/-- Modelled from the spec: the §8 round-trip parser over a string. -/
def parseInvoiceNumber (s : String) : Option (GoDate × Nat) :=
  parseInvoiceChars s.toList

/-- The five named invoice statuses (spec §3; invoice.go:10-16). -/
def validStatusesList : List InvoiceStatus :=
  [InvoiceStatusDraft, InvoiceStatusSent, InvoiceStatusPaid,
    InvoiceStatusOverdue, InvoiceStatusCancelled]

/-- The transition graph of spec §3, written from the spec's words, to be
compared with the source's `isValidStatusTransition`. -/
def specTransitionEdges : List (InvoiceStatus × InvoiceStatus) :=
  [(InvoiceStatusDraft, InvoiceStatusSent),
   (InvoiceStatusDraft, InvoiceStatusCancelled),
   (InvoiceStatusSent, InvoiceStatusPaid),
   (InvoiceStatusSent, InvoiceStatusOverdue),
   (InvoiceStatusSent, InvoiceStatusCancelled),
   (InvoiceStatusOverdue, InvoiceStatusPaid),
   (InvoiceStatusOverdue, InvoiceStatusCancelled)]

/-- The update-client request with every field at its Go zero value: what
binding an empty JSON patch produces. -/
def emptyUpdateClientRequest : UpdateClientRequest :=
  { name := "", email := "", phone := "", address := "" }

/-- A stored invoice in the terminal `paid` status. -/
def paidInvoice : Invoice :=
  { id := 1, number := "INV-20240115-1", clientID := 1, amount := 100,
    status := InvoiceStatusPaid, issueDate := 10, dueDate := 20,
    description := "consulting", createdAt := 10, updatedAt := 10,
    deletedAt := none }

/-- An update request supplying only the new status `sent`; every other
field is at its Go zero value. -/
def sentStatusOnlyRequest : UpdateInvoiceRequest :=
  { amount := 0, status := InvoiceStatusSent, issueDate := 0, dueDate := 0,
    description := "" }

theorem charDigit_digitChar : ∀ d : Nat, d < 10 → charDigit (digitChar d) = some d := by
  decide

theorem parseDigitsAcc_append (cs : List Char) (acc v : Nat)
    (h : parseDigitsAcc acc cs = some v) (d : Nat) (hd : d < 10) :
    parseDigitsAcc acc (cs ++ [digitChar d]) = some (v * 10 + d) := by
  induction cs generalizing acc with
  | nil =>
    simp only [parseDigitsAcc, Option.some.injEq] at h
    subst h
    simp [parseDigitsAcc, charDigit_digitChar d hd]
  | cons c rest ih =>
    simp only [parseDigitsAcc] at h ⊢
    cases hc : charDigit c with
    | none =>
      rw [hc] at h
      simp at h
    | some e =>
      rw [hc] at h
      dsimp only at h ⊢
      exact ih _ h

theorem parseDigitsAcc_natToDigits (n : Nat) :
    parseDigitsAcc 0 (natToDigits n) = some n := by
  induction n using Nat.strong_induction_on with
  | _ n ih =>
    rw [natToDigits]
    split
    · rename_i h
      simp [parseDigitsAcc, charDigit_digitChar n h]
    · rename_i h
      have hlt : n / 10 < n := Nat.div_lt_self (by omega) (by omega)
      have hstep := parseDigitsAcc_append (natToDigits (n / 10)) 0 (n / 10)
        (ih _ hlt) (n % 10) (Nat.mod_lt _ (by omega))
      rw [hstep]
      congr 1
      omega

theorem natToDigits_ne_nil (n : Nat) : natToDigits n ≠ [] := by
  rw [natToDigits]
  split <;> simp

theorem parseDecimal_natToDigits (n : Nat) :
    parseDecimal (natToDigits n) = some n := by
  have h := parseDigitsAcc_natToDigits n
  cases hc : natToDigits n with
  | nil => exact absurd hc (natToDigits_ne_nil n)
  | cons c rest =>
    rw [hc] at h
    simpa [parseDecimal] using h

/-- C7: for every issuance date `d` (a real calendar date with a
four-digit year) and same-day count `n`, the generated number
`INV-YYYYMMDD-<n+1>` parses back to exactly `d` and sequence `n + 1`. -/
theorem generateInvoiceNumber_roundTrip (d : GoDate) (count : Nat)
    (hy : d.year ≤ 9999) (hm1 : 1 ≤ d.month) (hm2 : d.month ≤ 12)
    (hd1 : 1 ≤ d.day) (hd2 : d.day ≤ 31) :
    parseInvoiceNumber (generateInvoiceNumber d count) = some (d, count + 1) := by
  obtain ⟨y, m, dd⟩ := d
  simp only at hy hm1 hm2 hd1 hd2
  have hlist : (generateInvoiceNumber ⟨y, m, dd⟩ count).toList =
      'I' :: 'N' :: 'V' :: '-' ::
      digitChar (y / 1000 % 10) :: digitChar (y / 100 % 10) ::
      digitChar (y / 10 % 10) :: digitChar (y % 10) ::
      digitChar (m / 10 % 10) :: digitChar (m % 10) ::
      digitChar (dd / 10 % 10) :: digitChar (dd % 10) :: '-' ::
      natToDigits (count + 1) := rfl
  unfold parseInvoiceNumber
  rw [hlist]
  simp only [parseInvoiceChars,
    charDigit_digitChar (y / 1000 % 10) (by omega),
    charDigit_digitChar (y / 100 % 10) (by omega),
    charDigit_digitChar (y / 10 % 10) (by omega),
    charDigit_digitChar (y % 10) (by omega),
    charDigit_digitChar (m / 10 % 10) (by omega),
    charDigit_digitChar (m % 10) (by omega),
    charDigit_digitChar (dd / 10 % 10) (by omega),
    charDigit_digitChar (dd % 10) (by omega),
    parseDecimal_natToDigits (count + 1)]
  simp only [Option.some.injEq, Prod.mk.injEq, GoDate.mk.injEq]
  exact ⟨⟨by omega, by omega, by omega⟩, trivial⟩

/-- Witness for C7 at the spec's scenario date 2024-01-15 with zero
invoices already issued that day. -/
theorem generateInvoiceNumber_roundTrip_witness :
    parseInvoiceNumber (generateInvoiceNumber ⟨2024, 1, 15⟩ 0) =
      some (⟨2024, 1, 15⟩, 1) :=
  generateInvoiceNumber_roundTrip ⟨2024, 1, 15⟩ 0 (by decide) (by decide)
    (by decide) (by decide) (by decide)

/-- C1 (failing evidence): the source's own transition guard says
`paid -> sent` is illegal, yet the update handler has no rejection path
for status changes: fed a stored `paid` invoice and a request carrying
only the new status `sent`, it succeeds and returns the invoice with
status `sent`, all other fields unchanged. -/
theorem updateInvoice_applies_illegal_transition :
    isValidStatusTransition InvoiceStatusPaid InvoiceStatusSent = false ∧
    applyInvoiceUpdate paidInvoice sentStatusOnlyRequest =
      { paidInvoice with status := InvoiceStatusSent } := by
  constructor
  · decide
  · decide

/-- C2: restricted to the five named statuses, the source's transition
check is true exactly on the edges of the spec §3 graph, and in
particular every self-loop is rejected. -/
theorem isValidStatusTransition_matches_graph :
    (∀ f ∈ validStatusesList, ∀ t ∈ validStatusesList,
      (isValidStatusTransition f t = true ↔ (f, t) ∈ specTransitionEdges)) ∧
    (∀ x ∈ validStatusesList, isValidStatusTransition x x = false) := by
  decide

/-- Witness for C2: a listed edge is allowed, a self-loop is not. -/
theorem isValidStatusTransition_matches_graph_witness :
    isValidStatusTransition InvoiceStatusSent InvoiceStatusPaid = true ∧
    isValidStatusTransition InvoiceStatusPaid InvoiceStatusPaid = false :=
  ⟨(isValidStatusTransition_matches_graph.1 InvoiceStatusSent (by decide)
      InvoiceStatusPaid (by decide)).mpr (by decide),
    isValidStatusTransition_matches_graph.2 InvoiceStatusPaid (by decide)⟩

/-- C10: a source status outside the five named ones has no entry in the
transition map, so no transition out of it is ever allowed. -/
theorem isValidStatusTransition_unknown_source_false
    (fromStatus : InvoiceStatus) (h : fromStatus ∉ validStatusesList)
    (toStatus : InvoiceStatus) :
    isValidStatusTransition fromStatus toStatus = false := by
  simp only [validStatusesList, List.mem_cons, List.not_mem_nil, or_false,
    not_or] at h
  obtain ⟨h1, h2, h3, h4, h5⟩ := h
  simp [isValidStatusTransition, transitionsFor, h1, h2, h3, h4, h5]

/-- Witness for C10 at the unrecognized status string `pending`. -/
theorem isValidStatusTransition_unknown_source_false_witness :
    isValidStatusTransition "pending" InvoiceStatusPaid = false :=
  isValidStatusTransition_unknown_source_false "pending" (by decide)
    InvoiceStatusPaid

/-- C3: for every non-negative live-invoice count, the client deletion
guard permits deletion exactly when the count is zero, and when it blocks
the error carries the count. -/
theorem deleteClientGuard_blocks_iff_positive (n : Int) (hn : 0 ≤ n) :
    (deleteClientGuard n = none ↔ n = 0) ∧
    (0 < n → deleteClientGuard n = some n) := by
  constructor
  · constructor
    · intro h
      by_contra hne
      have hpos : n > 0 := by omega
      simp [deleteClientGuard, hpos] at h
    · intro h
      simp [deleteClientGuard, h]
  · intro h
    simp [deleteClientGuard, h]

/-- Witness for C3: zero live invoices lets deletion proceed; two live
invoices block it with count 2 (spec §8 scenario 6). -/
theorem deleteClientGuard_blocks_iff_positive_witness :
    deleteClientGuard 0 = none ∧ deleteClientGuard 2 = some 2 :=
  ⟨(deleteClientGuard_blocks_iff_positive 0 (by norm_num)).1.mpr rfl,
    (deleteClientGuard_blocks_iff_positive 2 (by norm_num)).2 (by norm_num)⟩

/-- C4: invoice deletion is blocked exactly for status `paid`; every
other status string, `cancelled` and `overdue` included, may be
deleted. -/
theorem canDeleteInvoice_false_iff_paid :
    canDeleteInvoice InvoiceStatusPaid = false ∧
    ∀ s : InvoiceStatus, s ≠ InvoiceStatusPaid → canDeleteInvoice s = true := by
  refine ⟨by decide, ?_⟩
  intro s hs
  simp [canDeleteInvoice, hs]

/-- Witness for C4 at the statuses the claim singles out. -/
theorem canDeleteInvoice_false_iff_paid_witness :
    canDeleteInvoice InvoiceStatusCancelled = true ∧
    canDeleteInvoice InvoiceStatusOverdue = true :=
  ⟨canDeleteInvoice_false_iff_paid.2 InvoiceStatusCancelled (by decide),
    canDeleteInvoice_false_iff_paid.2 InvoiceStatusOverdue (by decide)⟩

/-- C6: create-validation passes exactly when the client reference is
set, the amount is positive, the description fits in 500 bytes, and,
whenever both dates are set, the due date does not precede the issue
date; and each check fires in source order, short-circuiting the later
ones. -/
theorem validateCreateInvoiceRequest_checks (req : CreateInvoiceRequest) :
    (validateCreateInvoiceRequest req = none ↔
      (req.clientID ≠ 0 ∧ 0 < req.amount ∧
        req.description.utf8ByteSize ≤ 500 ∧
        (req.dueDate ≠ 0 → req.issueDate ≠ 0 → req.issueDate ≤ req.dueDate))) ∧
    (req.clientID = 0 →
      validateCreateInvoiceRequest req = some .missingClientID) ∧
    (req.clientID ≠ 0 → req.amount ≤ 0 →
      validateCreateInvoiceRequest req = some .nonPositiveAmount) ∧
    (req.clientID ≠ 0 → 0 < req.amount →
      500 < req.description.utf8ByteSize →
      validateCreateInvoiceRequest req = some .descriptionTooLong) ∧
    (req.clientID ≠ 0 → 0 < req.amount →
      req.description.utf8ByteSize ≤ 500 →
      req.dueDate ≠ 0 → req.issueDate ≠ 0 → req.dueDate < req.issueDate →
      validateCreateInvoiceRequest req = some .dueBeforeIssue) := by
  refine ⟨⟨?_, ?_⟩, ?_, ?_, ?_, ?_⟩
  · intro h
    unfold validateCreateInvoiceRequest at h
    split_ifs at h with h1 h2 h3 h4
    have hle : req.issueDate ≤ req.dueDate ∨ ¬ (req.dueDate ≠ 0 ∧ req.issueDate ≠ 0) := by
      by_cases hz : req.dueDate ≠ 0 ∧ req.issueDate ≠ 0
      · left
        by_contra hlt
        exact h4 ⟨hz.1, hz.2, not_le.mp hlt⟩
      · right; exact hz
    refine ⟨h1, by exact not_le.mp h2, by exact not_lt.mp h3, ?_⟩
    intro hd hi
    rcases hle with hle | hne
    · exact hle
    · exact absurd ⟨hd, hi⟩ hne
  · rintro ⟨h1, h2, h3, h4⟩
    unfold validateCreateInvoiceRequest
    rw [if_neg h1, if_neg (not_le.mpr h2), if_neg (not_lt.mpr h3), if_neg]
    rintro ⟨hd, hi, hlt⟩
    exact absurd (h4 hd hi) (not_le.mpr hlt)
  · intro h1
    unfold validateCreateInvoiceRequest
    rw [if_pos h1]
  · intro h1 h2
    unfold validateCreateInvoiceRequest
    rw [if_neg h1, if_pos h2]
  · intro h1 h2 h3
    unfold validateCreateInvoiceRequest
    rw [if_neg h1, if_neg (not_le.mpr h2), if_pos h3]
  · intro h1 h2 h3 hd hi hlt
    unfold validateCreateInvoiceRequest
    rw [if_neg h1, if_neg (not_le.mpr h2), if_neg (not_lt.mpr h3),
      if_pos ⟨hd, hi, hlt⟩]

/-- Witness for C6: a zero client id fails the first check (spec §8
scenario-style input), and a fully valid request passes. -/
theorem validateCreateInvoiceRequest_checks_witness :
    validateCreateInvoiceRequest
      { clientID := 0, amount := 100, status := "", issueDate := 10,
        dueDate := 20, description := "" } = some .missingClientID ∧
    validateCreateInvoiceRequest
      { clientID := 7, amount := 100, status := "", issueDate := 10,
        dueDate := 20, description := "web work" } = none :=
  ⟨(validateCreateInvoiceRequest_checks _).2.1 rfl,
    (validateCreateInvoiceRequest_checks _).1.mpr
      (by refine ⟨by decide, by norm_num, by decide, ?_⟩
          intro _ _
          decide)⟩

/-- C8: the client patch is the identity on the empty patch; each of the
four patch fields overwrites exactly when non-empty and otherwise keeps
the stored value (the id is never touched), so a stored non-empty field
can never be cleared to empty by any patch. -/
theorem applyClientUpdate_patch_semantics :
    (∀ c, applyClientUpdate c emptyUpdateClientRequest = c) ∧
    (∀ c r,
      ((applyClientUpdate c r).name = if r.name = "" then c.name else r.name) ∧
      ((applyClientUpdate c r).email = if r.email = "" then c.email else r.email) ∧
      ((applyClientUpdate c r).phone = if r.phone = "" then c.phone else r.phone) ∧
      ((applyClientUpdate c r).address = if r.address = "" then c.address else r.address) ∧
      (applyClientUpdate c r).id = c.id) ∧
    (∀ c r,
      (c.name ≠ "" → (applyClientUpdate c r).name ≠ "") ∧
      (c.email ≠ "" → (applyClientUpdate c r).email ≠ "") ∧
      (c.phone ≠ "" → (applyClientUpdate c r).phone ≠ "") ∧
      (c.address ≠ "" → (applyClientUpdate c r).address ≠ "")) := by
  refine ⟨?_, ?_, ?_⟩
  · intro c
    simp [applyClientUpdate, emptyUpdateClientRequest]
  · intro c r
    unfold applyClientUpdate
    by_cases hn : r.name = "" <;> by_cases he : r.email = "" <;>
      by_cases hp : r.phone = "" <;> by_cases ha : r.address = "" <;>
      simp [hn, he, hp, ha]
  · intro c r
    unfold applyClientUpdate
    by_cases hn : r.name = "" <;> by_cases he : r.email = "" <;>
      by_cases hp : r.phone = "" <;> by_cases ha : r.address = "" <;>
      simp [hn, he, hp, ha]

/-- Witness for C8: the empty patch leaves a concrete client intact, and
a patch with an empty name cannot clear the stored name. -/
theorem applyClientUpdate_patch_semantics_witness :
    applyClientUpdate
      { id := 1, name := "Acme", email := "info@acme.example", phone := "",
        address := "HQ", createdAt := 0, updatedAt := 0, deletedAt := none }
      emptyUpdateClientRequest =
      { id := 1, name := "Acme", email := "info@acme.example", phone := "",
        address := "HQ", createdAt := 0, updatedAt := 0, deletedAt := none } ∧
    (applyClientUpdate
      { id := 1, name := "Acme", email := "info@acme.example", phone := "",
        address := "HQ", createdAt := 0, updatedAt := 0, deletedAt := none }
      { name := "", email := "sales@acme.example", phone := "555",
        address := "" }).name ≠ "" :=
  ⟨applyClientUpdate_patch_semantics.1 _,
    (applyClientUpdate_patch_semantics.2.2 _ _).1 (by decide)⟩

/-- C9: on update, a supplied amount that is not positive is treated as
no change, and a positive supplied amount overwrites the stored one. -/
theorem applyInvoiceUpdate_amount_semantics (inv : Invoice)
    (req : UpdateInvoiceRequest) :
    (req.amount ≤ 0 → (applyInvoiceUpdate inv req).amount = inv.amount) ∧
    (0 < req.amount → (applyInvoiceUpdate inv req).amount = req.amount) := by
  unfold applyInvoiceUpdate
  constructor
  · intro h
    rw [if_neg (not_lt.mpr h)]
    split_ifs <;> rfl
  · intro h
    rw [if_pos h]
    split_ifs <;> rfl

/-- Witness for C9: an update carrying amount −5 leaves the stored
amount, one carrying 250 overwrites it. -/
theorem applyInvoiceUpdate_amount_semantics_witness :
    (applyInvoiceUpdate paidInvoice
      { amount := -5, status := "", issueDate := 0, dueDate := 0,
        description := "" }).amount = paidInvoice.amount ∧
    (applyInvoiceUpdate paidInvoice
      { amount := 250, status := "", issueDate := 0, dueDate := 0,
        description := "" }).amount = 250 :=
  ⟨(applyInvoiceUpdate_amount_semantics _ _).1 (by norm_num),
    (applyInvoiceUpdate_amount_semantics _ _).2 (by norm_num)⟩
